import Mathlib

/-!
Shallow embedding of the consensus-parameter module of rust-monacoin
(src/consensus/params.rs): the four network parameter sets built by
Params::new and the derived difficulty-adjustment interval, together with
theorems settling the specification claims about them.
-/

namespace Monacoin

/-- Modelled from the spec: the external closed Network Variant enumeration
(main production network, public test network, signed test network, local
regression-test network) consumed by the parameter factory.  In the source
this is crate::network::constants::Network, not part of this fragment. -/
inductive Network where
  | Bitcoin
  | Testnet
  | Signet
  | Regtest
deriving DecidableEq, Repr, Fintype

/-- Modelled from the spec: the external 256-bit unsigned integer type
(crate::util::uint::Uint256), built from four 64-bit limbs with the
most-significant limb last (limb i weighs 2 ^ (64 * i)), and supporting
ordering comparison of the represented magnitudes. -/
structure Uint256 where
  limb0 : Nat
  limb1 : Nat
  limb2 : Nat
  limb3 : Nat
deriving DecidableEq, Repr

/-- The natural number represented by a Uint256: limbs are little-endian,
limb 3 is the most significant. -/
def Uint256.toNat (u : Uint256) : Nat :=
  u.limb0 + u.limb1 * 2 ^ 64 + u.limb2 * 2 ^ 128 + u.limb3 * 2 ^ 192

/-- Ordering comparison on Uint256 as 256-bit unsigned magnitudes. -/
def Uint256.le (a b : Uint256) : Prop :=
  a.toNat ≤ b.toNat

instance (a b : Uint256) : Decidable (Uint256.le a b) := by
  unfold Uint256.le; infer_instance

/-- Lowest possible difficulty for Mainnet (const MAX_BITS_BITCOIN). -/
def MAX_BITS_BITCOIN : Uint256 :=
  ⟨0xffffffffffffffff, 0xffffffffffffffff, 0xffffffffffffffff, 0x00000fffffffffff⟩

/-- Lowest possible difficulty for Testnet (const MAX_BITS_TESTNET). -/
def MAX_BITS_TESTNET : Uint256 :=
  ⟨0xffffffffffffffff, 0xffffffffffffffff, 0xffffffffffffffff, 0x00000fffffffffff⟩

/-- Lowest possible difficulty for Signet (const MAX_BITS_SIGNET). -/
def MAX_BITS_SIGNET : Uint256 :=
  ⟨0xffffffffffffffff, 0xffffffffffffffff, 0xffffffffffffffff, 0x000fffffffffffff⟩

/-- Lowest possible difficulty for Regtest (const MAX_BITS_REGTEST). -/
def MAX_BITS_REGTEST : Uint256 :=
  ⟨0x0000000000000000, 0x0000000000000000, 0x0000000000000000, 0x7fffff0000000000⟩

/-- Parameters that influence chain consensus (struct Params).  Unsigned
32-bit and 64-bit fields are carried as Nat; every literal the factory
stores is far below the corresponding width bound. -/
structure Params where
  network : Network
  bip16_time : Nat
  bip34_height : Nat
  bip65_height : Nat
  bip66_height : Nat
  rule_change_activation_threshold : Nat
  miner_confirmation_window : Nat
  pow_limit : Uint256
  pow_target_spacing : Nat
  pow_target_timespan : Nat
  allow_min_difficulty_blocks : Bool
  no_pow_retargeting : Bool
  switch_lyra2rev2_dgwblock : Nat
deriving DecidableEq, Repr

/-- Creates the parameter set for the given network (Params::new), with the
exact literals of the source match arms. -/
def Params.new (network : Network) : Params :=
  match network with
  | Network.Bitcoin =>
      { network := Network.Bitcoin
        bip16_time := 0
        bip34_height := 0
        bip65_height := 977759
        bip66_height := 977759
        rule_change_activation_threshold := 7560
        miner_confirmation_window := 10080
        pow_limit := MAX_BITS_BITCOIN
        pow_target_spacing := 90
        pow_target_timespan := 95040
        allow_min_difficulty_blocks := false
        no_pow_retargeting := false
        switch_lyra2rev2_dgwblock := 450000 }
  | Network.Testnet =>
      { network := Network.Testnet
        bip16_time := 1333238400
        bip34_height := 0
        bip65_height := 0
        bip66_height := 0
        rule_change_activation_threshold := 75
        miner_confirmation_window := 100
        pow_limit := MAX_BITS_TESTNET
        pow_target_spacing := 90
        pow_target_timespan := 95040
        allow_min_difficulty_blocks := true
        no_pow_retargeting := false
        switch_lyra2rev2_dgwblock := 60 }
  | Network.Signet =>
      { network := Network.Signet
        bip16_time := 1333238400
        bip34_height := 1
        bip65_height := 1
        bip66_height := 1
        rule_change_activation_threshold := 75
        miner_confirmation_window := 100
        pow_limit := MAX_BITS_SIGNET
        pow_target_spacing := 90
        pow_target_timespan := 95040
        allow_min_difficulty_blocks := false
        no_pow_retargeting := false
        switch_lyra2rev2_dgwblock := 1 }
  | Network.Regtest =>
      { network := Network.Regtest
        bip16_time := 1333238400
        bip34_height := 1
        bip65_height := 1
        bip66_height := 1
        rule_change_activation_threshold := 108
        miner_confirmation_window := 144
        pow_limit := MAX_BITS_REGTEST
        pow_target_spacing := 90
        pow_target_timespan := 95040
        allow_min_difficulty_blocks := true
        no_pow_retargeting := true
        switch_lyra2rev2_dgwblock := 60 }

/-- Outcome of the derived interval accessor.  Rust unsigned integer
division by zero aborts the process with a panic rather than returning a
value, so the embedding makes that branch explicit. -/
inductive DAIOutcome where
  | value (blocks : Nat)
  | divideByZero
deriving DecidableEq, Repr

/-- Calculates the number of blocks between difficulty adjustments
(Params::difficulty_adjustment_interval): pow_target_timespan /
pow_target_spacing on u64 operands, a division-by-zero panic when the
divisor is zero. -/
def Params.difficulty_adjustment_interval (p : Params) : DAIOutcome :=
  if p.pow_target_spacing = 0 then DAIOutcome.divideByZero
  else DAIOutcome.value (p.pow_target_timespan / p.pow_target_spacing)

/-- C1: for every network variant, Params.new returns the exact literal
field values of the spec table in §4.1, including the exact four 64-bit
limbs of pow_limit for each variant. -/
theorem c1_params_new_table :
    Params.new Network.Bitcoin =
      { network := Network.Bitcoin, bip16_time := 0, bip34_height := 0,
        bip65_height := 977759, bip66_height := 977759,
        rule_change_activation_threshold := 7560,
        miner_confirmation_window := 10080,
        pow_limit := ⟨0xffffffffffffffff, 0xffffffffffffffff,
                      0xffffffffffffffff, 0x00000fffffffffff⟩,
        pow_target_spacing := 90, pow_target_timespan := 95040,
        allow_min_difficulty_blocks := false, no_pow_retargeting := false,
        switch_lyra2rev2_dgwblock := 450000 } ∧
    Params.new Network.Testnet =
      { network := Network.Testnet, bip16_time := 1333238400,
        bip34_height := 0, bip65_height := 0, bip66_height := 0,
        rule_change_activation_threshold := 75,
        miner_confirmation_window := 100,
        pow_limit := ⟨0xffffffffffffffff, 0xffffffffffffffff,
                      0xffffffffffffffff, 0x00000fffffffffff⟩,
        pow_target_spacing := 90, pow_target_timespan := 95040,
        allow_min_difficulty_blocks := true, no_pow_retargeting := false,
        switch_lyra2rev2_dgwblock := 60 } ∧
    Params.new Network.Signet =
      { network := Network.Signet, bip16_time := 1333238400,
        bip34_height := 1, bip65_height := 1, bip66_height := 1,
        rule_change_activation_threshold := 75,
        miner_confirmation_window := 100,
        pow_limit := ⟨0xffffffffffffffff, 0xffffffffffffffff,
                      0xffffffffffffffff, 0x000fffffffffffff⟩,
        pow_target_spacing := 90, pow_target_timespan := 95040,
        allow_min_difficulty_blocks := false, no_pow_retargeting := false,
        switch_lyra2rev2_dgwblock := 1 } ∧
    Params.new Network.Regtest =
      { network := Network.Regtest, bip16_time := 1333238400,
        bip34_height := 1, bip65_height := 1, bip66_height := 1,
        rule_change_activation_threshold := 108,
        miner_confirmation_window := 144,
        pow_limit := ⟨0, 0, 0, 0x7fffff0000000000⟩,
        pow_target_spacing := 90, pow_target_timespan := 95040,
        allow_min_difficulty_blocks := true, no_pow_retargeting := true,
        switch_lyra2rev2_dgwblock := 60 } := by
  decide

/-- C2 counterexample: the claim says the pow_limit of Main (and Test) is
numerically ≥ the pow_limit of Signet; in fact Signet's limit is NOT ≤
Main's, refuting the claim at the concrete pair (Signet, Main):
Signet's most-significant limb 0x000fffffffffffff exceeds Main's
0x00000fffffffffff. -/
theorem c2_counterexample_signet_above_main :
    ¬ Uint256.le (Params.new Network.Signet).pow_limit
        (Params.new Network.Bitcoin).pow_limit := by
  decide

/-- C2 amended: comparing the pow_limit values of the four built parameter
sets as 256-bit unsigned integers, Regtest's limit is ≥ Signet's, Signet's
is ≥ Main's and Test's, and Main's equals Test's (Regtest loosest, Main and
Test tightest of the four). -/
theorem c2_pow_limit_ordering :
    Uint256.le (Params.new Network.Signet).pow_limit
      (Params.new Network.Regtest).pow_limit ∧
    Uint256.le (Params.new Network.Bitcoin).pow_limit
      (Params.new Network.Signet).pow_limit ∧
    Uint256.le (Params.new Network.Testnet).pow_limit
      (Params.new Network.Signet).pow_limit ∧
    (Params.new Network.Bitcoin).pow_limit =
      (Params.new Network.Testnet).pow_limit := by
  decide

/-- C3 counterexample: on a parameter set with pow_target_spacing = 0,
difficulty_adjustment_interval hits the division-by-zero panic; it does not
signal any recoverable error value, refuting the claim that an
InvalidParameters error is surfaced to the caller without panicking. -/
theorem c3_counterexample_zero_spacing_panics :
    Params.difficulty_adjustment_interval
      { network := Network.Bitcoin, bip16_time := 0, bip34_height := 0,
        bip65_height := 0, bip66_height := 0,
        rule_change_activation_threshold := 1,
        miner_confirmation_window := 1,
        pow_limit := MAX_BITS_BITCOIN,
        pow_target_spacing := 0, pow_target_timespan := 95040,
        allow_min_difficulty_blocks := false, no_pow_retargeting := false,
        switch_lyra2rev2_dgwblock := 0 } = DAIOutcome.divideByZero := by
  decide

/-- C3 amended: for any parameter set whose pow_target_spacing is zero,
difficulty_adjustment_interval aborts with a division-by-zero panic; the
code defines no InvalidParameters error and returns no clamped or default
value on that input. -/
theorem c3_zero_spacing_divide_by_zero (p : Params)
    (h : p.pow_target_spacing = 0) :
    Params.difficulty_adjustment_interval p = DAIOutcome.divideByZero := by
  unfold Params.difficulty_adjustment_interval
  rw [if_pos h]

/-- C3 witness: the amended theorem applied to a concrete zero-spacing
parameter set. -/
theorem c3_zero_spacing_divide_by_zero_witness :
    Params.difficulty_adjustment_interval
      { network := Network.Regtest, bip16_time := 0, bip34_height := 0,
        bip65_height := 0, bip66_height := 0,
        rule_change_activation_threshold := 1,
        miner_confirmation_window := 1,
        pow_limit := MAX_BITS_REGTEST,
        pow_target_spacing := 0, pow_target_timespan := 1,
        allow_min_difficulty_blocks := true, no_pow_retargeting := true,
        switch_lyra2rev2_dgwblock := 0 } = DAIOutcome.divideByZero :=
  c3_zero_spacing_divide_by_zero _ rfl

/-- C4: for every one of the four network variants,
difficulty_adjustment_interval of the built parameter set returns exactly
1056 blocks, the exact quotient 95040 / 90. -/
theorem c4_interval_is_1056 :
    Params.difficulty_adjustment_interval (Params.new Network.Bitcoin) =
      DAIOutcome.value 1056 ∧
    Params.difficulty_adjustment_interval (Params.new Network.Testnet) =
      DAIOutcome.value 1056 ∧
    Params.difficulty_adjustment_interval (Params.new Network.Signet) =
      DAIOutcome.value 1056 ∧
    Params.difficulty_adjustment_interval (Params.new Network.Regtest) =
      DAIOutcome.value 1056 ∧
    95040 % 90 = 0 := by
  decide

/-- C5: for every parameter set with nonzero pow_target_spacing,
difficulty_adjustment_interval returns the floor quotient of
pow_target_timespan by pow_target_spacing. -/
theorem c5_interval_is_floor_quotient (p : Params)
    (h : p.pow_target_spacing ≠ 0) :
    Params.difficulty_adjustment_interval p =
      DAIOutcome.value (p.pow_target_timespan / p.pow_target_spacing) := by
  unfold Params.difficulty_adjustment_interval
  rw [if_neg h]

/-- C5 witness: the floor-quotient theorem applied to the built Main
parameter set, whose spacing 90 is nonzero. -/
theorem c5_interval_is_floor_quotient_witness :
    Params.difficulty_adjustment_interval (Params.new Network.Bitcoin) =
      DAIOutcome.value
        ((Params.new Network.Bitcoin).pow_target_timespan /
          (Params.new Network.Bitcoin).pow_target_spacing) :=
  c5_interval_is_floor_quotient (Params.new Network.Bitcoin) (by decide)

/-- C6: every built parameter set satisfies
0 < rule_change_activation_threshold ≤ miner_confirmation_window. -/
theorem c6_threshold_within_window :
    (0 < (Params.new Network.Bitcoin).rule_change_activation_threshold ∧
      (Params.new Network.Bitcoin).rule_change_activation_threshold ≤
        (Params.new Network.Bitcoin).miner_confirmation_window) ∧
    (0 < (Params.new Network.Testnet).rule_change_activation_threshold ∧
      (Params.new Network.Testnet).rule_change_activation_threshold ≤
        (Params.new Network.Testnet).miner_confirmation_window) ∧
    (0 < (Params.new Network.Signet).rule_change_activation_threshold ∧
      (Params.new Network.Signet).rule_change_activation_threshold ≤
        (Params.new Network.Signet).miner_confirmation_window) ∧
    (0 < (Params.new Network.Regtest).rule_change_activation_threshold ∧
      (Params.new Network.Regtest).rule_change_activation_threshold ≤
        (Params.new Network.Regtest).miner_confirmation_window) := by
  decide

/-- C7: Params.new is total over the closed four-case enumeration (every
variant is one of the four handled cases) and no two distinct variants
share a constructed record (no fallback or default value crossing
variants); as a Lean function it is pure by construction. -/
theorem c7_params_new_total_no_shared_fallback :
    (∀ v : Network, v = Network.Bitcoin ∨ v = Network.Testnet ∨
      v = Network.Signet ∨ v = Network.Regtest) ∧
    (∀ v w : Network, Params.new v = Params.new w → v = w) := by
  decide

/-- C8: among the four built parameter sets, no_pow_retargeting is true
only for Regtest, and allow_min_difficulty_blocks is true exactly for
Test and Regtest. -/
theorem c8_retargeting_and_min_difficulty_flags :
    (Params.new Network.Bitcoin).no_pow_retargeting = false ∧
    (Params.new Network.Testnet).no_pow_retargeting = false ∧
    (Params.new Network.Signet).no_pow_retargeting = false ∧
    (Params.new Network.Regtest).no_pow_retargeting = true ∧
    (Params.new Network.Bitcoin).allow_min_difficulty_blocks = false ∧
    (Params.new Network.Testnet).allow_min_difficulty_blocks = true ∧
    (Params.new Network.Signet).allow_min_difficulty_blocks = false ∧
    (Params.new Network.Regtest).allow_min_difficulty_blocks = true := by
  decide

/-- C9: the network field of every built parameter set equals the variant
the set was built for. -/
theorem c9_network_field_matches_variant :
    (Params.new Network.Bitcoin).network = Network.Bitcoin ∧
    (Params.new Network.Testnet).network = Network.Testnet ∧
    (Params.new Network.Signet).network = Network.Signet ∧
    (Params.new Network.Regtest).network = Network.Regtest := by
  decide

/-- C10: every built parameter set has nonzero pow_target_spacing and a
pow_target_timespan that is an exact multiple of it, so the
division-by-zero branch of difficulty_adjustment_interval is unreachable
on built sets and the division loses no remainder. -/
theorem c10_division_welldefined_and_exact :
    ((Params.new Network.Bitcoin).pow_target_spacing ≠ 0 ∧
      (Params.new Network.Bitcoin).pow_target_timespan %
        (Params.new Network.Bitcoin).pow_target_spacing = 0 ∧
      Params.difficulty_adjustment_interval (Params.new Network.Bitcoin) ≠
        DAIOutcome.divideByZero) ∧
    ((Params.new Network.Testnet).pow_target_spacing ≠ 0 ∧
      (Params.new Network.Testnet).pow_target_timespan %
        (Params.new Network.Testnet).pow_target_spacing = 0 ∧
      Params.difficulty_adjustment_interval (Params.new Network.Testnet) ≠
        DAIOutcome.divideByZero) ∧
    ((Params.new Network.Signet).pow_target_spacing ≠ 0 ∧
      (Params.new Network.Signet).pow_target_timespan %
        (Params.new Network.Signet).pow_target_spacing = 0 ∧
      Params.difficulty_adjustment_interval (Params.new Network.Signet) ≠
        DAIOutcome.divideByZero) ∧
    ((Params.new Network.Regtest).pow_target_spacing ≠ 0 ∧
      (Params.new Network.Regtest).pow_target_timespan %
        (Params.new Network.Regtest).pow_target_spacing = 0 ∧
      Params.difficulty_adjustment_interval (Params.new Network.Regtest) ≠
        DAIOutcome.divideByZero) := by
  decide

end Monacoin
